import Mathlib

/-!
Verification of the InterStellar swap client (UI order-submission layer).

The development embeds, from the source:
  * the JavaScript number semantics the client relies on (IEEE-754 binary64
    arithmetic modelled exactly over `ℚ`, ECMAScript `parseFloat` and
    `Number::toString`),
  * the `OrderData` / `Signature` / `Order` data model,
  * the REST helpers `postOrder` / `postSecret`,
  * the `Swap` component's state and its handlers `handleUseMax` and
    `submitOrder`.

All definitions are executable; theorems about the claims follow at the end.
-/

/-! ## JavaScript numbers: IEEE-754 binary64 modelled exactly over `ℚ`

A JavaScript `number` is NaN, a signed infinity, or a finite binary64 value.
Finite values are carried as exact rationals; every finite value produced by
the operations below is representable (it is the image of `roundDouble`).
-/

inductive JsNum where
  | nan : JsNum
  | inf (negative : Bool) : JsNum
  | fin (q : ℚ) : JsNum
deriving DecidableEq, Repr

/-! Batteries marks `Rat.mul`, `Rat.add`, `Rat.sub` and `Rat.inv`
`@[irreducible]`, which blocks `decide`-style evaluation; the wrappers below
compute the same operations through `mkRat` and are proved equal to them. -/

/-- Rational multiplication, evaluable by the kernel. -/
def qmul (a b : ℚ) : ℚ := mkRat (a.num * b.num) (a.den * b.den)

/-- Rational subtraction, evaluable by the kernel. -/
def qsub (a b : ℚ) : ℚ := mkRat (a.num * b.den - b.num * a.den) (a.den * b.den)

/-- Rational inverse (0 for 0), evaluable by the kernel. -/
def qinv (b : ℚ) : ℚ :=
  if 0 ≤ b.num then mkRat b.den b.num.toNat
  else mkRat (-(b.den : Int)) (-b.num).toNat

/-- Rational division (0 for division by 0), evaluable by the kernel. -/
def qdiv (a b : ℚ) : ℚ := qmul a (qinv b)

/-- Rational absolute value, evaluable by the kernel. -/
def qabs (a : ℚ) : ℚ := if a < 0 then -a else a

theorem qmul_eq (a b : ℚ) : qmul a b = a * b := by
  unfold qmul
  rw [Rat.mkRat_eq_divInt, Rat.divInt_eq_div]
  push_cast
  rw [← div_mul_div_comm, Rat.num_div_den, Rat.num_div_den]

theorem qsub_eq (a b : ℚ) : qsub a b = a - b := by
  have key : ∀ q : ℚ, (q.num : ℚ) = q * q.den := by
    intro q
    have hd : (q.den : ℚ) ≠ 0 := by exact_mod_cast q.den_nz
    have h := Rat.num_div_den q
    rw [div_eq_iff hd] at h
    exact h
  unfold qsub
  rw [Rat.mkRat_eq_divInt, Rat.divInt_eq_div]
  have ha : (a.den : ℚ) ≠ 0 := by exact_mod_cast a.den_nz
  have hb : (b.den : ℚ) ≠ 0 := by exact_mod_cast b.den_nz
  push_cast
  rw [div_eq_iff (mul_ne_zero ha hb), key a, key b]
  ring

theorem qinv_eq (b : ℚ) : qinv b = b⁻¹ := by
  unfold qinv
  rw [Rat.inv_def']
  rcases le_or_lt 0 b.num with h | h
  · rw [if_pos h, Rat.mkRat_eq_divInt, Int.toNat_of_nonneg h]
  · rw [if_neg (not_le.mpr h), Rat.mkRat_eq_divInt, Int.toNat_of_nonneg (by omega)]
    exact Rat.neg_divInt_neg b.den b.num

theorem qdiv_eq (a b : ℚ) : qdiv a b = a / b := by
  rw [qdiv, qmul_eq, qinv_eq, div_eq_mul_inv]

theorem qabs_eq (a : ℚ) : qabs a = |a| := by
  unfold qabs
  rcases lt_or_ge a 0 with h | h
  · rw [if_pos h, abs_of_neg h]
  · rw [if_neg (not_lt.mpr h), abs_of_nonneg h]

/-- Iterated multiplication on `ℚ` by structural recursion (kernel-reducible). -/
def qnpow (b : ℚ) : Nat → ℚ
  | 0 => 1
  | n + 1 => qmul (qnpow b n) b

theorem qnpow_eq (b : ℚ) (n : Nat) : qnpow b n = b ^ n := by
  induction n with
  | zero => rfl
  | succ n ih => rw [qnpow, qmul_eq, ih, pow_succ]

/-- Integer powers of a rational base. -/
def ipow (b : ℚ) (e : Int) : ℚ :=
  if 0 ≤ e then qnpow b e.toNat else qinv (qnpow b (-e).toNat)

theorem ipow_eq (b : ℚ) (e : Int) : ipow b e = b ^ e := by
  unfold ipow
  rcases le_or_lt 0 e with h | h
  · rw [if_pos h, qnpow_eq, ← zpow_natCast, Int.toNat_of_nonneg h]
  · rw [if_neg (not_le.mpr h), qinv_eq, qnpow_eq, ← zpow_natCast,
      Int.toNat_of_nonneg (by omega), ← zpow_neg, Int.neg_neg]

/-- Integer powers of two through `Nat.shiftLeft`, which evaluates in one
step; the unary recursion of `qnpow` is too deep for exponents near the
binary64 range. -/
def qpow2 (e : Int) : ℚ :=
  if 0 ≤ e then ((1 <<< e.toNat : ℕ) : ℚ) else qinv ((1 <<< (-e).toNat : ℕ) : ℚ)

theorem qpow2_eq (e : Int) : qpow2 e = (2 : ℚ) ^ e := by
  have hs : ∀ n : Nat, ((1 <<< n : ℕ) : ℚ) = (2 : ℚ) ^ n := by
    intro n
    rw [Nat.shiftLeft_eq, one_mul]
    push_cast
    ring
  unfold qpow2
  rcases le_or_lt 0 e with h | h
  · rw [if_pos h, hs, ← zpow_natCast, Int.toNat_of_nonneg h]
  · rw [if_neg (not_le.mpr h), qinv_eq, hs, ← zpow_natCast,
      Int.toNat_of_nonneg (by omega), ← zpow_neg, Int.neg_neg]

/-- Climb the exponent while `p = b^(e+1) ≤ q`; fuel bounds the loop. -/
def logUp (b q : ℚ) : Nat → Int → ℚ → Int
  | 0, e, _ => e
  | fuel + 1, e, p => if p ≤ q then logUp b q fuel (e + 1) (qmul p b) else e

/-- Descend the exponent while `q < p = b^e`; fuel bounds the loop. -/
def logDown (b q : ℚ) : Nat → Int → ℚ → Int
  | 0, e, _ => e
  | fuel + 1, e, p => if q < p then logDown b q fuel (e - 1) (qdiv p b) else e

/-- Floor of `log_b q` for positive `q` (fuel covers the binary64 range). -/
def ratLogFloor (b q : ℚ) : Int :=
  let hi := logUp b q 40000 0 b
  logDown b q 40000 hi (ipow b hi)

/-- Round a rational to an integer, ties to even (IEEE default rounding). -/
def roundHalfEven (q : ℚ) : Int :=
  let f := Rat.floor q
  let r := qsub q (f : ℚ)
  if r < mkRat 1 2 then f
  else if mkRat 1 2 < r then f + 1
  else if f % 2 = 0 then f else f + 1

/-- Round a positive rational to the nearest binary64 value (or `+∞`). -/
def roundPosDouble (q : ℚ) : JsNum :=
  let e := ratLogFloor 2 q
  if e < -1022 then
    let m := roundHalfEven (qmul q (qpow2 1074))
    JsNum.fin (qmul (m : ℚ) (qpow2 (-1074)))
  else
    let m := roundHalfEven (qmul q (qpow2 (52 - e)))
    let v := qmul (m : ℚ) (qpow2 (e - 52))
    if qpow2 1024 ≤ v then JsNum.inf false else JsNum.fin v

/-- Round any rational to the nearest binary64 value, ties to even. -/
def roundDouble (q : ℚ) : JsNum :=
  if q = 0 then JsNum.fin 0
  else if q < 0 then
    match roundPosDouble (-q) with
    | JsNum.fin v => JsNum.fin (-v)
    | JsNum.inf _ => JsNum.inf true
    | JsNum.nan => JsNum.nan
  else roundPosDouble q

/-- Binary64 multiplication with the IEEE special-value rules used by JS `*`. -/
def jsMul : JsNum → JsNum → JsNum
  | JsNum.nan, _ => JsNum.nan
  | _, JsNum.nan => JsNum.nan
  | JsNum.inf s, JsNum.inf t => JsNum.inf (xor s t)
  | JsNum.inf s, JsNum.fin q =>
    if q = 0 then JsNum.nan else JsNum.inf (xor s (decide (q < 0)))
  | JsNum.fin q, JsNum.inf s =>
    if q = 0 then JsNum.nan else JsNum.inf (xor (decide (q < 0)) s)
  | JsNum.fin a, JsNum.fin b => roundDouble (qmul a b)

/-! ### ECMAScript `Number::toString` (radix 10)

For a finite nonzero value `v` the algorithm picks integers `k`, `s`, `n`
with `k` minimal such that `s` has `k` digits and the decimal `s·10^(n-k)`
rounds back to `v`; among candidates it picks the closest, ties to the even
`s`.  The digits are then laid out by the fixed/exponential rules of the
standard.
-/

/-- Decimal value denoted by a candidate `(s, n)` printed with `k` digits. -/
def candValue (k : Nat) (s : Nat) (n : Int) : ℚ :=
  qmul (s : ℚ) (ipow 10 (n - (k : Int)))

/-- A candidate is valid when `s` has exactly `k` digits and its decimal
value rounds (to nearest, ties even) back to `v`. -/
def validCand (v : ℚ) (k : Nat) (c : Nat × Int) : Bool :=
  decide (10 ^ (k - 1) ≤ c.1) && decide (c.1 < 10 ^ k) &&
    decide (roundDouble (candValue k c.1 c.2) = JsNum.fin v)

/-- Floor/ceiling digit candidates for `v` at `k` digits and decimal point `n`. -/
def candidatesFor (v : ℚ) (k : Nat) (n : Int) : List (Nat × Int) :=
  let t := qmul v (ipow 10 ((k : Int) - n))
  let f := Rat.floor t
  let base := f.toNat
  [(base, n), (base + 1, n)]

/-- Among valid candidates pick the decimal closest to `v`, ties to even `s`. -/
def pickBest (v : ℚ) (k : Nat) : List (Nat × Int) → Option (Nat × Int)
  | [] => none
  | c :: cs =>
    match pickBest v k cs with
    | none => some c
    | some d =>
      let dc := qabs (qsub (candValue k c.1 c.2) v)
      let dd := qabs (qsub (candValue k d.1 d.2) v)
      if dc < dd then some c
      else if dd < dc then some d
      else if c.1 % 2 = 0 then some c else some d

/-- Search increasing digit counts `k` for the shortest faithful decimal.
Seventeen digits always suffice for binary64, so the fuel is never spent
on a representable input; the fallback keeps the function total. -/
def searchDigits (v : ℚ) (n0 : Int) : Nat → Nat → Nat × Int
  | 0, _ => (0, 0)
  | fuel + 1, k =>
    let cands := (candidatesFor v k n0 ++ candidatesFor v k (n0 + 1)).filter (validCand v k)
    match pickBest v k cands with
    | some c => c
    | none => searchDigits v n0 fuel (k + 1)

/-- Shortest decimal digits `s` and decimal-point position `n` for positive `v`. -/
def shortestDigits (v : ℚ) : Nat × Int :=
  searchDigits v (ratLogFloor 10 v + 1) 20 1

/-- String of `n` zero characters. -/
def zeros (n : Nat) : String := String.mk (List.replicate n '0')

/-- Lay out digits `s` with decimal point `n` per ECMAScript 6.1.6.1.20. -/
def fmtPositive (v : ℚ) : String :=
  let sn := shortestDigits v
  let ds := Nat.repr sn.1
  let n := sn.2
  let k : Int := (ds.length : Int)
  if k ≤ n ∧ n ≤ 21 then ds ++ zeros (n - k).toNat
  else if 0 < n ∧ n ≤ 21 then
    let cs := ds.toList
    String.mk (cs.take n.toNat) ++ "." ++ String.mk (cs.drop n.toNat)
  else if -6 < n ∧ n ≤ 0 then "0." ++ zeros (-n).toNat ++ ds
  else
    let cs := ds.toList
    let mant :=
      if cs.length ≤ 1 then String.mk cs
      else String.mk (cs.take 1) ++ "." ++ String.mk (cs.drop 1)
    let ex := n - 1
    mant ++ "e" ++ (if 0 ≤ ex then "+" ++ Nat.repr ex.toNat else "-" ++ Nat.repr (-ex).toNat)

/-- JavaScript `Number.prototype.toString()` (radix 10). -/
def jsNumToString : JsNum → String
  | JsNum.nan => "NaN"
  | JsNum.inf false => "Infinity"
  | JsNum.inf true => "-Infinity"
  | JsNum.fin q =>
    if q = 0 then "0"
    else if q < 0 then "-" ++ fmtPositive (-q)
    else fmtPositive q

/-! ### ECMAScript `parseFloat` -/

/-- Decimal digit value of a character, if any. -/
def digitVal (c : Char) : Option Nat :=
  if '0' ≤ c ∧ c ≤ '9' then some (c.toNat - 48) else none

/-- Split a leading run of decimal digits from the rest. -/
def takeDigits : List Char → List Nat × List Char
  | [] => ([], [])
  | c :: rest =>
    match digitVal c with
    | some d =>
      let p := takeDigits rest
      (d :: p.1, p.2)
    | none => ([], c :: rest)

/-- Natural number denoted by a digit list (most significant first). -/
def digitsToNat (ds : List Nat) : Nat := ds.foldl (fun a d => a * 10 + d) 0

/-- Drop leading JavaScript whitespace. -/
def skipWs : List Char → List Char
  | c :: rest =>
    if c = ' ' ∨ c = '\t' ∨ c = '\n' ∨ c = '\r' ∨ c = '\x0b' ∨ c = '\x0c' then skipWs rest
    else c :: rest
  | [] => []

/-- Check that the first list leads the second. -/
def strLeads : List Char → List Char → Bool
  | [], _ => true
  | _, [] => false
  | a :: as1, b :: bs => a = b && strLeads as1 bs

/-- Signed exponent of an `ExponentPart`, 0 when absent or digit-less.
The magnitude is clamped far outside the binary64 range, where every
decimal either overflows to infinity or underflows to zero anyway. -/
def parseExpPart (cs : List Char) : Int :=
  match cs with
  | c :: r =>
    if c = 'e' ∨ c = 'E' then
      let sr : Bool × List Char :=
        match r with
        | '-' :: t => (true, t)
        | '+' :: t => (false, t)
        | t => (false, t)
      let ds := (takeDigits sr.2).1
      if ds.isEmpty then 0
      else
        let n : Nat := min (digitsToNat ds) 3000
        if sr.1 then -(n : Int) else (n : Int)
    else 0
  | [] => 0

/-- ECMAScript `parseFloat`: longest `StrDecimalLiteral` prefix after
leading whitespace, `NaN` when there is none, value rounded to binary64. -/
def parseFloat (str : String) : JsNum :=
  let cs0 := skipWs str.toList
  let sgn : Bool × List Char :=
    match cs0 with
    | '-' :: r => (true, r)
    | '+' :: r => (false, r)
    | r => (false, r)
  let neg := sgn.1
  let cs := sgn.2
  if strLeads "Infinity".toList cs then JsNum.inf neg
  else
    let ipr := takeDigits cs
    let fpr : List Nat × List Char :=
      match ipr.2 with
      | '.' :: r => takeDigits r
      | _ => ([], ipr.2)
    if ipr.1.isEmpty ∧ fpr.1.isEmpty then JsNum.nan
    else
      let mantissa : ℚ := qdiv ((digitsToNat (ipr.1 ++ fpr.1) : ℕ) : ℚ) (qnpow 10 fpr.1.length)
      let ex := parseExpPart fpr.2
      let v := qmul mantissa (ipow 10 ex)
      roundDouble (if neg then -v else v)

/-- Binary64 value of the JavaScript source literal `0.95`. -/
def jsDouble095 : JsNum := roundDouble (mkRat 19 20)

/-! ## Order data model

Embeds `OrderData`, `Signature`, `Order` from `models/order` (re-exported at
the bottom of the swap component source).  The TypeScript `number` chain
fields only ever hold the integer chain identifiers 1 (Stellar) and 2 (the
EVM chain), so they are carried as integers here.
-/

structure OrderData where
  salt : String
  src_chain : Int
  dst_chain : Int
  make_amount : String
  take_amount : String
deriving DecidableEq, Repr

structure Signature where
  signed_message : String
  signer_address : String
deriving DecidableEq, Repr

structure Order where
  order_data : OrderData
  signature : Signature
deriving DecidableEq, Repr

/-! ### Canonical JSON encoding

`submitOrder` signs `JSON.stringify(orderData)`.  `JSON.stringify` emits the
object's properties in insertion order, i.e. the order of the object literal
in `submitOrder`: salt, src_chain, dst_chain, make_amount, take_amount.
-/

/-- Hexadecimal digit character for a value below 16. -/
def hexDigit (n : Nat) : Char :=
  if n < 10 then Char.ofNat (48 + n) else Char.ofNat (87 + n)

/-- Four-digit lowercase hex rendering used by the `\u` escape. -/
def hex4 (n : Nat) : String :=
  String.mk [hexDigit (n / 4096 % 16), hexDigit (n / 256 % 16), hexDigit (n / 16 % 16), hexDigit (n % 16)]

/-- JSON string escaping as performed by `JSON.stringify`. -/
def escChar (c : Char) : String :=
  if c = '"' then "\\\""
  else if c = '\\' then "\\\\"
  else if c = '\x08' then "\\b"
  else if c = '\t' then "\\t"
  else if c = '\n' then "\\n"
  else if c = '\x0c' then "\\f"
  else if c = '\r' then "\\r"
  else if c.toNat < 32 then "\\u" ++ hex4 c.toNat
  else String.singleton c

/-- A JSON string literal: quoted and escaped. -/
def quoteStr (s : String) : String :=
  "\"" ++ String.join (s.toList.map escChar) ++ "\""

/-- `JSON.stringify` of the `orderData` object literal built in `submitOrder`. -/
def stringifyOrderData (od : OrderData) : String :=
  "\x7b\"salt\":" ++ quoteStr od.salt ++
    ",\"src_chain\":" ++ Int.repr od.src_chain ++
    ",\"dst_chain\":" ++ Int.repr od.dst_chain ++
    ",\"make_amount\":" ++ quoteStr od.make_amount ++
    ",\"take_amount\":" ++ quoteStr od.take_amount ++ "\x7d"

/-! ### JSON values and the payload codec (for the round-trip property) -/

inductive Json where
  | str (s : String) : Json
  | int (n : Int) : Json
  | obj (fields : List (String × Json)) : Json

/-- Field lookup in a JSON object. -/
def jField (j : Json) (k : String) : Option Json :=
  match j with
  | Json.obj fs => fs.lookup k
  | _ => none

/-- Expect a JSON string. -/
def jStr : Json → Option String
  | Json.str s => some s
  | _ => none

/-- Expect a JSON integer. -/
def jInt : Json → Option Int
  | Json.int n => some n
  | _ => none

/-- JSON value of an `OrderData`, properties in the object-literal order. -/
def encodeOrderData (od : OrderData) : Json :=
  Json.obj [("salt", Json.str od.salt), ("src_chain", Json.int od.src_chain),
    ("dst_chain", Json.int od.dst_chain), ("make_amount", Json.str od.make_amount),
    ("take_amount", Json.str od.take_amount)]

/-- JSON value of a `Signature`. -/
def encodeSignature (sg : Signature) : Json :=
  Json.obj [("signed_message", Json.str sg.signed_message),
    ("signer_address", Json.str sg.signer_address)]

/-- JSON value of an `Order` payload. -/
def encodeOrder (o : Order) : Json :=
  Json.obj [("order_data", encodeOrderData o.order_data),
    ("signature", encodeSignature o.signature)]

/-- Modelled from the spec: the decoder for `OrderData` payloads.  The source
tree holds only the client; the Relayer that parses the JSON body back into
an `OrderData` is not under it, so the decoder follows the data model of
spec section 3 field by field. -/
def decodeOrderData (j : Json) : Option OrderData := do
  let salt ← jField j "salt" >>= jStr
  let src ← jField j "src_chain" >>= jInt
  let dst ← jField j "dst_chain" >>= jInt
  let mk ← jField j "make_amount" >>= jStr
  let tk ← jField j "take_amount" >>= jStr
  pure { salt := salt, src_chain := src, dst_chain := dst, make_amount := mk, take_amount := tk }

/-- Modelled from the spec: the decoder for `Signature` payloads. -/
def decodeSignature (j : Json) : Option Signature := do
  let sm ← jField j "signed_message" >>= jStr
  let sa ← jField j "signer_address" >>= jStr
  pure { signed_message := sm, signer_address := sa }

/-- Modelled from the spec: the decoder for `Order` payloads. -/
def decodeOrder (j : Json) : Option Order := do
  let od ← jField j "order_data" >>= decodeOrderData
  let sg ← jField j "signature" >>= decodeSignature
  pure { order_data := od, signature := sg }

/-! ## REST API layer (`interstellar-api`) -/

/-- Body of a request made through the REST client: the order object or the
`\x7bsecret\x7d` wrapper object built by `postSecret`. -/
inductive ApiBody where
  | orderBody (o : Order) : ApiBody
  | secretBody (secret : String) : ApiBody
deriving DecidableEq, Repr

structure ApiRequest where
  endpoint : String
  method : String
  body : ApiBody
deriving DecidableEq, Repr

/-- A response as consumed by the client: `response.data as boolean`. -/
structure ApiResponse where
  data : Bool
deriving DecidableEq, Repr

/-- The request `postOrder` issues for an order. -/
def postOrderRequest (order : Order) : ApiRequest :=
  { endpoint := "order", method := "POST", body := ApiBody.orderBody order }

/-- The request `postSecret` issues for a secret. -/
def postSecretRequest (secret : String) : ApiRequest :=
  { endpoint := "secret", method := "POST", body := ApiBody.secretBody secret }

/-- `postOrder`: one POST of the order to the `order` endpoint; the result is
the response body as a boolean.  The transport is an explicit responder
function; the emitted request is returned alongside the result. -/
def postOrder (respond : ApiRequest → ApiResponse) (order : Order) : ApiRequest × Bool :=
  (postOrderRequest order, (respond (postOrderRequest order)).data)

/-- `postSecret`: one POST of `\x7bsecret\x7d` to the `secret` endpoint. -/
def postSecret (respond : ApiRequest → ApiResponse) (secret : String) : ApiRequest × Bool :=
  (postSecretRequest secret, (respond (postSecretRequest secret)).data)

/-! ## The `Swap` component

State mirrors the component's `useState` hooks.  Balances are JavaScript
numbers (`parseFloat` results), addresses are `string | null`.
-/

structure SwapState where
  tokensPair : String
  freighterConnected : Bool
  metamaskConnected : Bool
  stellarAddress : Option String
  evmAddress : Option String
  xlmBalance : Option JsNum
  ethBalance : Option JsNum
  fromAmount : String
  advancedOpen : Bool
  resolverAddress : String
deriving DecidableEq, Repr

/-- JavaScript `a || b` on a nullable string: `b` when `a` is null or empty
(the empty string is falsy). -/
def jsOrStr (a : Option String) (b : String) : String :=
  match a with
  | none => b
  | some s => if s = "" then b else s

/-- JavaScript falsiness of a nullable string (`!a`). -/
def strFalsy (a : Option String) : Bool :=
  match a with
  | none => true
  | some s => s = ""

/-- Handler `handleUseMax`.  The source is
`if (pair === 'XLMETH' && xlm != null) setFromAmount(xlm.toString());
else if (pair === 'ETHXLM' && eth != null) setFromAmount(eth.toString());`.
The two pair tests are mutually exclusive, so when the pair is `XLMETH` and
the balance is null the else-if arm cannot fire and the state is unchanged. -/
def handleUseMax (s : SwapState) : SwapState :=
  if s.tokensPair = "XLMETH" then
    match s.xlmBalance with
    | some b => { s with fromAmount := jsNumToString b }
    | none => s
  else if s.tokensPair = "ETHXLM" then
    match s.ethBalance with
    | some b => { s with fromAmount := jsNumToString b }
    | none => s
  else s

/-- The `orderData` object literal built first thing in `submitOrder`.
The salt comes from `Math.random().toString(36).substring(2, 15)` and is
passed in as an oracle. -/
def submitOrderData (s : SwapState) (salt : String) : OrderData :=
  { salt := salt
    src_chain := if s.tokensPair = "XLMETH" then 1 else 2
    dst_chain := if s.tokensPair = "XLMETH" then 2 else 1
    make_amount := s.fromAmount
    take_amount := jsNumToString (jsMul (parseFloat s.fromAmount) jsDouble095) }

/-- Result of one `submitOrder` run: either an early return behind an
`alert` (nothing sent), or a `postOrder` of the final payload. -/
inductive SubmitResult where
  | aborted (msg : String) : SubmitResult
  | posted (payload : Order) : SubmitResult
deriving DecidableEq, Repr

/-- Wallet signing result of `kit.signMessage` (Freighter): the signed
message together with an optional signer address. -/
structure FreighterSig where
  signedMessage : String
  signerAddress : Option String
deriving DecidableEq, Repr

/-- Handler `submitOrder`.  Wallet interactions are oracles:
`hasEthereum` is the presence of `window.ethereum`, `metamaskSign` models
`signer.signMessage`, `freighterSign` models `kit.signMessage`.  The
signature starts out as the empty pair and is only replaced in the two
recognised pair branches; any other pair value falls through and posts the
payload with the empty signature. -/
def submitOrder (s : SwapState) (salt : String) (hasEthereum : Bool)
    (metamaskSign : String → String) (freighterSign : String → FreighterSig) : SubmitResult :=
  let orderData := submitOrderData s salt
  if s.tokensPair = "ETHXLM" then
    if !hasEthereum then SubmitResult.aborted "MetaMask not installed"
    else
      let signatureData := metamaskSign (stringifyOrderData orderData)
      SubmitResult.posted
        { order_data := orderData
          signature := { signed_message := signatureData
                         signer_address := jsOrStr s.evmAddress "" } }
  else if s.tokensPair = "XLMETH" then
    if !s.freighterConnected || strFalsy s.stellarAddress then
      SubmitResult.aborted "Freighter not connected"
    else
      let signatureData := freighterSign (stringifyOrderData orderData)
      SubmitResult.posted
        { order_data := orderData
          signature := { signed_message := signatureData.signedMessage
                         signer_address := jsOrStr signatureData.signerAddress
                           (jsOrStr s.stellarAddress "") } }
  else
    SubmitResult.posted
      { order_data := orderData
        signature := { signed_message := "", signer_address := "" } }

/-- Every interactive element of the component's JSX, as an event. -/
inductive UiEvent where
  | submitSwapClick (salt : String) (hasEthereum : Bool) : UiEvent
  | maxClick : UiEvent
  | pairSelected (value : String) : UiEvent
  | amountChanged (value : String) : UiEvent
  | connectFreighterClick : UiEvent
  | connectMetamaskClick : UiEvent
  | switchAccountClick : UiEvent
  | disconnectFreighterClick : UiEvent
  | resolverAddressChanged (value : String) : UiEvent
  | advancedToggled (isOpen : Bool) : UiEvent
deriving DecidableEq, Repr

/-- REST requests issued by one event.  Only the Submit Swap button's
handler (`submitOrder`) talks to the API; every other handler touches
wallets or local state.  `postSecret` is imported by the component but no
handler invokes it. -/
def eventRequests (metamaskSign : String → String) (freighterSign : String → FreighterSig)
    (s : SwapState) : UiEvent → List ApiRequest
  | UiEvent.submitSwapClick salt hasEthereum =>
    match submitOrder s salt hasEthereum metamaskSign freighterSign with
    | SubmitResult.posted payload => [postOrderRequest payload]
    | SubmitResult.aborted _ => []
  | _ => []

/-! ## A strict decimal-numeral reading (for the amount invariants)

The spec calls `make_amount` / `take_amount` "decimal-string quantities".
`decFullValue` is the exact rational a string denotes when the whole string
is an optionally signed decimal numeral, and `none` otherwise. -/

def decFullValue (str : String) : Option ℚ :=
  let cs0 := str.toList
  let sgn : Bool × List Char :=
    match cs0 with
    | '-' :: r => (true, r)
    | '+' :: r => (false, r)
    | r => (false, r)
  let ipr := takeDigits sgn.2
  let fpr : List Nat × List Char :=
    match ipr.2 with
    | '.' :: r => takeDigits r
    | _ => ([], ipr.2)
  if ipr.1.isEmpty ∧ fpr.1.isEmpty then none
  else
    let expPart : Option Int :=
      match fpr.2 with
      | [] => some 0
      | c :: r =>
        if c = 'e' ∨ c = 'E' then
          let sr : Bool × List Char :=
            match r with
            | '-' :: t => (true, t)
            | '+' :: t => (false, t)
            | t => (false, t)
          let dsr := takeDigits sr.2
          if dsr.1.isEmpty ∨ ¬ dsr.2.isEmpty then none
          else some (if sr.1 then -(digitsToNat dsr.1 : Int) else (digitsToNat dsr.1 : Int))
        else none
    match expPart with
    | none => none
    | some ex =>
      let mag : ℚ := qmul (qdiv ((digitsToNat (ipr.1 ++ fpr.1) : ℕ) : ℚ) (qnpow 10 fpr.1.length)) (ipow 10 ex)
      some (if sgn.1 then -mag else mag)

/-! ## Concrete environments used to instantiate the theorems -/

/-- A deterministic stand-in for the MetaMask signer oracle. -/
def sigEnvM (m : String) : String := "mm-sig:" ++ m

/-- A deterministic stand-in for the Freighter signer oracle. -/
def sigEnvF (m : String) : FreighterSig :=
  { signedMessage := "fr-sig:" ++ m, signerAddress := some "GSIGNER" }

/-- The component's initial state (all hooks at their `useState` defaults). -/
def baseState : SwapState :=
  { tokensPair := "", freighterConnected := false, metamaskConnected := false,
    stellarAddress := none, evmAddress := none, xlmBalance := none, ethBalance := none,
    fromAmount := "", advancedOpen := false, resolverAddress := "" }

/-! ## Inversion lemmas for `submitOrder` -/

theorem submitOrder_posted_data (s : SwapState) (salt : String) (hE : Bool)
    (mS : String → String) (fS : String → FreighterSig) (o : Order)
    (h : submitOrder s salt hE mS fS = SubmitResult.posted o) :
    o.order_data = submitOrderData s salt := by
  unfold submitOrder at h
  by_cases h1 : s.tokensPair = "ETHXLM"
  · simp only [if_pos h1] at h
    cases hE
    · simp at h
    · simp only [Bool.not_true, Bool.false_eq_true, if_false, SubmitResult.posted.injEq] at h
      rw [← h]
  · simp only [if_neg h1] at h
    by_cases h2 : s.tokensPair = "XLMETH"
    · simp only [if_pos h2] at h
      by_cases h3 : (!s.freighterConnected || strFalsy s.stellarAddress) = true
      · rw [if_pos h3] at h; cases h
      · rw [if_neg h3] at h
        simp only [SubmitResult.posted.injEq] at h
        rw [← h]
    · simp only [if_neg h2, SubmitResult.posted.injEq] at h
      rw [← h]

theorem submitOrder_other_pair (s : SwapState) (salt : String) (hE : Bool)
    (mS : String → String) (fS : String → FreighterSig)
    (h1 : s.tokensPair ≠ "ETHXLM") (h2 : s.tokensPair ≠ "XLMETH") :
    submitOrder s salt hE mS fS =
      SubmitResult.posted
        { order_data := submitOrderData s salt
          signature := { signed_message := "", signer_address := "" } } := by
  unfold submitOrder
  rw [if_neg h1, if_neg h2]

theorem submitOrder_eth_branch (s : SwapState) (salt : String)
    (mS : String → String) (fS : String → FreighterSig)
    (h1 : s.tokensPair = "ETHXLM") :
    submitOrder s salt true mS fS =
      SubmitResult.posted
        { order_data := submitOrderData s salt
          signature := { signed_message := mS (stringifyOrderData (submitOrderData s salt))
                         signer_address := jsOrStr s.evmAddress "" } } := by
  unfold submitOrder
  rw [if_pos h1]
  simp

theorem submitOrder_xlm_branch (s : SwapState) (salt : String) (hE : Bool)
    (mS : String → String) (fS : String → FreighterSig)
    (h1 : s.tokensPair = "XLMETH") (h2 : s.freighterConnected = true)
    (h3 : strFalsy s.stellarAddress = false) :
    submitOrder s salt hE mS fS =
      SubmitResult.posted
        { order_data := submitOrderData s salt
          signature :=
            { signed_message := (fS (stringifyOrderData (submitOrderData s salt))).signedMessage
              signer_address := jsOrStr (fS (stringifyOrderData (submitOrderData s salt))).signerAddress
                (jsOrStr s.stellarAddress "") } } := by
  unfold submitOrder
  have hne : s.tokensPair ≠ "ETHXLM" := by rw [h1]; decide
  rw [if_neg hne, if_pos h1, if_neg (by rw [h2, h3]; decide)]

/-! ## Claims -/

/-- C3: every order constructed by `submitOrder` carries two distinct
supported chain identifiers: source 1 and destination 2 when the pair is
`XLMETH`, source 2 and destination 1 otherwise — never equal, whatever the
selected `tokensPair` value. -/
theorem c3_distinct_chains (s : SwapState) (salt : String) (hE : Bool)
    (mS : String → String) (fS : String → FreighterSig) (o : Order)
    (h : submitOrder s salt hE mS fS = SubmitResult.posted o) :
    o.order_data.src_chain ≠ o.order_data.dst_chain ∧
      ((o.order_data.src_chain = 1 ∧ o.order_data.dst_chain = 2) ∨
        (o.order_data.src_chain = 2 ∧ o.order_data.dst_chain = 1)) := by
  rw [submitOrder_posted_data s salt hE mS fS o h]
  unfold submitOrderData
  by_cases hp : s.tokensPair = "XLMETH" <;> simp [hp]

theorem c3_witness :
    (submitOrderData baseState "w3").src_chain ≠ (submitOrderData baseState "w3").dst_chain := by
  have h := c3_distinct_chains baseState "w3" true sigEnvM sigEnvF
    { order_data := submitOrderData baseState "w3"
      signature := { signed_message := "", signer_address := "" } }
    (submitOrder_other_pair baseState "w3" true sigEnvM sigEnvF (by decide) (by decide))
  exact h.1

/-- C5: `postOrder` issues exactly one POST of the unchanged order object to
the `order` endpoint and returns the response body as a boolean. -/
theorem c5_postOrder_contract (respond : ApiRequest → ApiResponse) (o : Order) :
    (postOrder respond o).1 =
        { endpoint := "order", method := "POST", body := ApiBody.orderBody o } ∧
      (postOrder respond o).2 = (respond (postOrder respond o).1).data :=
  ⟨rfl, rfl⟩

/-- C6: `postSecret` issues exactly one POST whose body is the secret string
wrapped in an object, to the `secret` endpoint, and returns the response
body as a boolean. -/
theorem c6_postSecret_contract (respond : ApiRequest → ApiResponse) (sec : String) :
    (postSecret respond sec).1 =
        { endpoint := "secret", method := "POST", body := ApiBody.secretBody sec } ∧
      (postSecret respond sec).2 = (respond (postSecret respond sec).1).data :=
  ⟨rfl, rfl⟩

/-- C8: encoding an `OrderData` or an `Order` to its canonical JSON value
and decoding it back yields the identical structure. -/
theorem c8_roundtrip :
    (∀ od : OrderData, decodeOrderData (encodeOrderData od) = some od) ∧
      (∀ o : Order, decodeOrder (encodeOrder o) = some o) :=
  ⟨fun _ => rfl, fun _ => rfl⟩

/-- C9: for any `tokensPair` other than `ETHXLM` and `XLMETH`, `submitOrder`
does not reject: it posts the payload with an entirely empty signature. -/
theorem c9_unknown_pair_posts_unsigned (s : SwapState) (salt : String) (hE : Bool)
    (mS : String → String) (fS : String → FreighterSig)
    (h1 : s.tokensPair ≠ "ETHXLM") (h2 : s.tokensPair ≠ "XLMETH") :
    ∃ payload : Order,
      submitOrder s salt hE mS fS = SubmitResult.posted payload ∧
        payload.signature.signed_message = "" ∧ payload.signature.signer_address = "" :=
  ⟨_, submitOrder_other_pair s salt hE mS fS h1 h2, rfl, rfl⟩

theorem c9_witness :
    ∃ payload : Order,
      submitOrder baseState "w9" true sigEnvM sigEnvF = SubmitResult.posted payload ∧
        payload.signature.signed_message = "" ∧ payload.signature.signer_address = "" :=
  c9_unknown_pair_posts_unsigned baseState "w9" true sigEnvM sigEnvF (by decide) (by decide)

/-- C10: `handleUseMax` changes only `fromAmount`: to the string form of the
XLM balance when the pair is `XLMETH` and that balance is present, to the
string form of the ETH balance when the pair is `ETHXLM` and that balance is
present, and in every other case the whole state is unchanged. -/
theorem c10_handleUseMax_frame (s : SwapState) :
    ((handleUseMax s).tokensPair = s.tokensPair ∧
      (handleUseMax s).freighterConnected = s.freighterConnected ∧
      (handleUseMax s).metamaskConnected = s.metamaskConnected ∧
      (handleUseMax s).stellarAddress = s.stellarAddress ∧
      (handleUseMax s).evmAddress = s.evmAddress ∧
      (handleUseMax s).xlmBalance = s.xlmBalance ∧
      (handleUseMax s).ethBalance = s.ethBalance ∧
      (handleUseMax s).advancedOpen = s.advancedOpen ∧
      (handleUseMax s).resolverAddress = s.resolverAddress) ∧
    (s.tokensPair = "XLMETH" → ∀ b, s.xlmBalance = some b →
      (handleUseMax s).fromAmount = jsNumToString b) ∧
    (s.tokensPair = "ETHXLM" → ∀ b, s.ethBalance = some b →
      (handleUseMax s).fromAmount = jsNumToString b) ∧
    (¬(s.tokensPair = "XLMETH" ∧ s.xlmBalance ≠ none) →
      ¬(s.tokensPair = "ETHXLM" ∧ s.ethBalance ≠ none) →
      handleUseMax s = s) := by
  unfold handleUseMax
  by_cases h1 : s.tokensPair = "XLMETH"
  · have h1' : s.tokensPair ≠ "ETHXLM" := by rw [h1]; decide
    cases hx : s.xlmBalance <;> simp [h1, h1', hx]
  · by_cases h2 : s.tokensPair = "ETHXLM"
    · cases he : s.ethBalance <;> simp [h1, h2, he]
    · simp [h1, h2]

def maxState : SwapState :=
  { baseState with
    tokensPair := "XLMETH", freighterConnected := true,
    stellarAddress := some "GADDR", xlmBalance := some (JsNum.fin 7) }

set_option maxRecDepth 8000 in
theorem c10_witness :
    (handleUseMax maxState).resolverAddress = maxState.resolverAddress ∧
      (handleUseMax maxState).fromAmount = "7" := by
  have h := c10_handleUseMax_frame maxState
  exact ⟨h.1.2.2.2.2.2.2.2.2, (h.2.1 rfl (JsNum.fin 7) rfl).trans (by decide)⟩

/-- C7 counterexample: the claim asserts the client contains a reachable
path that submits the maker's secret.  It does not: no event of the Swap
component ever emits a request whose endpoint is `secret` (`postSecret` is
imported but never invoked). -/
theorem c7_counterexample :
    ¬ ∃ (mS : String → String) (fS : String → FreighterSig) (s : SwapState)
        (e : UiEvent) (req : ApiRequest),
        req ∈ eventRequests mS fS s e ∧ req.endpoint = "secret" := by
  rintro ⟨mS, fS, s, e, req, hmem, he⟩
  cases e <;> simp only [eventRequests, List.not_mem_nil] at hmem
  rename_i salt hasEth
  revert hmem
  cases hsub : submitOrder s salt hasEth mS fS <;> intro hmem
  · simp at hmem
  · simp only [List.mem_singleton] at hmem
    subst hmem
    exact absurd he (by simp [postOrderRequest])

/-- C7 (amended): the client never submits a secret at all: every request
any UI event emits is a POST of an order payload to the `order` endpoint,
so in particular no secret is ever submitted before its order. -/
theorem c7_no_secret_request (mS : String → String) (fS : String → FreighterSig)
    (s : SwapState) (e : UiEvent) (req : ApiRequest)
    (h : req ∈ eventRequests mS fS s e) :
    req.endpoint = "order" ∧ req.method = "POST" ∧ req.endpoint ≠ "secret" := by
  revert h
  cases e <;> simp only [eventRequests, List.not_mem_nil] <;> intro h
  case submitSwapClick salt hasEth =>
    revert h
    cases hsub : submitOrder s salt hasEth mS fS <;> intro h
    · simp at h
    · simp only [List.mem_singleton] at h
      subst h
      exact ⟨rfl, rfl, by simp [postOrderRequest]⟩
  all_goals exact absurd h (by simp)

theorem c7_witness :
    (postOrderRequest
        { order_data := submitOrderData baseState "w7"
          signature := { signed_message := "", signer_address := "" } }).endpoint = "order" ∧
      (postOrderRequest
        { order_data := submitOrderData baseState "w7"
          signature := { signed_message := "", signer_address := "" } }).method = "POST" ∧
      (postOrderRequest
        { order_data := submitOrderData baseState "w7"
          signature := { signed_message := "", signer_address := "" } }).endpoint ≠ "secret" := by
  apply c7_no_secret_request sigEnvM sigEnvF baseState (UiEvent.submitSwapClick "w7" true)
  simp only [eventRequests,
    submitOrder_other_pair baseState "w7" true sigEnvM sigEnvF (by decide) (by decide)]
  exact List.mem_singleton.mpr rfl

/-! ## Claims about the order payload (C1, C2, C4) -/

def c1State : SwapState := { baseState with fromAmount := "1" }

def ethState : SwapState :=
  { baseState with
    tokensPair := "ETHXLM", metamaskConnected := true,
    evmAddress := some "0xabc", fromAmount := "2" }

def state3 : SwapState := { baseState with fromAmount := "3" }

def state100 : SwapState := { baseState with fromAmount := "100" }

/-- C1 (amended): when the pair is `ETHXLM` the posted `signed_message` is
the MetaMask wallet's signature over `JSON.stringify(order_data)` and
`signer_address` is the stored EVM address (empty when none is stored);
when the pair is `XLMETH` it is Freighter's signature with Freighter's
reported signer address, falling back to the stored Stellar address or the
empty string; for any other pair value the payload is posted with both
signature fields empty. -/
theorem c1_signature_branches (s : SwapState) (salt : String) (hE : Bool)
    (mS : String → String) (fS : String → FreighterSig) (o : Order)
    (h : submitOrder s salt hE mS fS = SubmitResult.posted o) :
    (s.tokensPair = "ETHXLM" →
      o.signature.signed_message = mS (stringifyOrderData o.order_data) ∧
        o.signature.signer_address = jsOrStr s.evmAddress "") ∧
    (s.tokensPair = "XLMETH" →
      o.signature.signed_message = (fS (stringifyOrderData o.order_data)).signedMessage ∧
        o.signature.signer_address =
          jsOrStr (fS (stringifyOrderData o.order_data)).signerAddress
            (jsOrStr s.stellarAddress "")) ∧
    (s.tokensPair ≠ "ETHXLM" → s.tokensPair ≠ "XLMETH" →
      o.signature.signed_message = "" ∧ o.signature.signer_address = "") := by
  by_cases h1 : s.tokensPair = "ETHXLM"
  · cases hE
    · exfalso
      unfold submitOrder at h
      rw [if_pos h1] at h
      simp at h
    · rw [submitOrder_eth_branch s salt mS fS h1] at h
      injection h with h'
      subst h'
      refine ⟨fun _ => ⟨rfl, rfl⟩, fun h2 => ?_, fun hne _ => absurd h1 hne⟩
      rw [h1] at h2
      exact absurd h2 (by decide)
  · by_cases h2 : s.tokensPair = "XLMETH"
    · cases hcg : (!s.freighterConnected || strFalsy s.stellarAddress)
      · have hg := hcg
        simp only [Bool.or_eq_false_iff, Bool.not_eq_false'] at hg
        rw [submitOrder_xlm_branch s salt hE mS fS h2 hg.1 hg.2] at h
        injection h with h'
        subst h'
        refine ⟨fun hc => absurd hc h1, fun _ => ⟨rfl, rfl⟩, fun _ hne => absurd h2 hne⟩
      · exfalso
        unfold submitOrder at h
        rw [if_neg h1, if_pos h2] at h
        rw [if_pos hcg] at h
        cases h
    · rw [submitOrder_other_pair s salt hE mS fS h1 h2] at h
      injection h with h'
      subst h'
      exact ⟨fun hc => absurd hc h1, fun hc => absurd hc h2, fun _ _ => ⟨rfl, rfl⟩⟩

def ethPayload : Order :=
  { order_data := submitOrderData ethState "w1"
    signature :=
      { signed_message := sigEnvM (stringifyOrderData (submitOrderData ethState "w1"))
        signer_address := jsOrStr ethState.evmAddress "" } }

theorem c1_witness :
    ethPayload.signature.signed_message = sigEnvM (stringifyOrderData ethPayload.order_data) ∧
      ethPayload.signature.signer_address = "0xabc" := by
  have h := c1_signature_branches ethState "w1" true sigEnvM sigEnvF ethPayload
    (submitOrder_eth_branch ethState "w1" sigEnvM sigEnvF rfl)
  have h2 := h.1 rfl
  exact ⟨h2.1, h2.2.trans (by decide)⟩

set_option maxRecDepth 8000 in
/-- C1 counterexample: with the initial empty `tokensPair` selection,
`submitOrder` still posts; the source chain of the payload is the EVM chain
(2), yet `signed_message` is empty — not the MetaMask signature over the
canonical encoding — and `signer_address` is empty. -/
theorem c1_counterexample :
    ∃ o : Order,
      submitOrder c1State "cx1" true sigEnvM sigEnvF = SubmitResult.posted o ∧
        o.order_data.src_chain = 2 ∧
        o.signature.signed_message ≠ sigEnvM (stringifyOrderData o.order_data) ∧
        o.signature.signer_address = "" := by
  refine ⟨_, submitOrder_other_pair c1State "cx1" true sigEnvM sigEnvF (by decide) (by decide),
    by decide, by decide, rfl⟩

set_option maxRecDepth 8000 in
/-- C2 (amended): `take_amount` is the JavaScript string rendering of the
IEEE-754 binary64 product `parseFloat(make_amount) * 0.95`; for
`make_amount` "100" that product is exactly 95 and `take_amount` is "95". -/
theorem c2_take_amount (s : SwapState) (salt : String) (hE : Bool)
    (mS : String → String) (fS : String → FreighterSig) (o : Order)
    (h : submitOrder s salt hE mS fS = SubmitResult.posted o) :
    o.order_data.make_amount = s.fromAmount ∧
      o.order_data.take_amount =
        jsNumToString (jsMul (parseFloat o.order_data.make_amount) jsDouble095) ∧
      (o.order_data.make_amount = "100" → o.order_data.take_amount = "95") := by
  have hd := submitOrder_posted_data s salt hE mS fS o h
  have hmake : o.order_data.make_amount = s.fromAmount := by rw [hd]; rfl
  have htake : o.order_data.take_amount =
      jsNumToString (jsMul (parseFloat s.fromAmount) jsDouble095) := by rw [hd]; rfl
  refine ⟨hmake, by rw [htake, hmake], fun h100 => ?_⟩
  rw [htake, hmake.symm.trans h100]
  decide

set_option maxRecDepth 8000 in
theorem c2_witness :
    ∃ o : Order,
      submitOrder state100 "w2" true sigEnvM sigEnvF = SubmitResult.posted o ∧
        o.order_data.make_amount = "100" ∧ o.order_data.take_amount = "95" := by
  have hp := submitOrder_other_pair state100 "w2" true sigEnvM sigEnvF (by decide) (by decide)
  have h2 := c2_take_amount state100 "w2" true sigEnvM sigEnvF _ hp
  exact ⟨_, hp, h2.1, h2.2.2 h2.1⟩

set_option maxRecDepth 8000 in
/-- C2 counterexample: for `fromAmount` "3" the posted `take_amount` is the
binary64 artefact "2.8499999999999996", not the exact decimal "2.85" of
0.95 × 3 — the computation does go through binary floating point. -/
theorem c2_counterexample :
    ∃ o : Order,
      submitOrder state3 "cx2" true sigEnvM sigEnvF = SubmitResult.posted o ∧
        o.order_data.make_amount = "3" ∧
        o.order_data.take_amount ≠ "2.85" ∧
        o.order_data.take_amount = "2.8499999999999996" := by
  refine ⟨_, submitOrder_other_pair state3 "cx2" true sigEnvM sigEnvF (by decide) (by decide),
    rfl, by decide, by decide⟩

set_option maxRecDepth 8000 in
/-- C4 (amended): the client validates nothing about the amount:
`make_amount` is the raw `fromAmount` string, and whenever
`parseFloat(fromAmount)` is NaN (the empty string, a non-numeric string)
the posted `take_amount` is the string "NaN", which is not a decimal
numeral at all — in particular not a positive one. -/
theorem c4_no_validation (s : SwapState) (salt : String) (hE : Bool)
    (mS : String → String) (fS : String → FreighterSig) (o : Order)
    (h : submitOrder s salt hE mS fS = SubmitResult.posted o)
    (hnan : parseFloat s.fromAmount = JsNum.nan) :
    o.order_data.make_amount = s.fromAmount ∧
      o.order_data.take_amount = "NaN" ∧
      decFullValue o.order_data.take_amount = none := by
  have hd := submitOrder_posted_data s salt hE mS fS o h
  have hmake : o.order_data.make_amount = s.fromAmount := by rw [hd]; rfl
  have htake : o.order_data.take_amount =
      jsNumToString (jsMul (parseFloat s.fromAmount) jsDouble095) := by rw [hd]; rfl
  have hN : o.order_data.take_amount = "NaN" := by rw [htake, hnan]; rfl
  exact ⟨hmake, hN, by rw [hN]; decide⟩

theorem c4_witness :
    ∃ o : Order,
      submitOrder baseState "w4" true sigEnvM sigEnvF = SubmitResult.posted o ∧
        o.order_data.make_amount = "" ∧ o.order_data.take_amount = "NaN" := by
  have hp := submitOrder_other_pair baseState "w4" true sigEnvM sigEnvF (by decide) (by decide)
  have h4 := c4_no_validation baseState "w4" true sigEnvM sigEnvF _ hp (by decide)
  exact ⟨_, hp, h4.1, h4.2.1⟩

set_option maxRecDepth 8000 in
/-- C4 counterexample: submitting with the initial empty `fromAmount`
posts `make_amount` "" and `take_amount` "NaN"; neither is a decimal-string
denoting a positive number. -/
theorem c4_counterexample :
    ∃ o : Order,
      submitOrder baseState "cx4" true sigEnvM sigEnvF = SubmitResult.posted o ∧
        o.order_data.make_amount = "" ∧
        o.order_data.take_amount = "NaN" ∧
        decFullValue o.order_data.make_amount = none ∧
        decFullValue o.order_data.take_amount = none := by
  refine ⟨_, submitOrder_other_pair baseState "cx4" true sigEnvM sigEnvF (by decide) (by decide),
    rfl, by decide, by decide, by decide⟩
